import Mathlib

/-!
Shallow embedding of ioniq_exporter (src/main.go) and proofs about its
poll-resolve-publish loop.

Modelling conventions:
* Go `(string, error)` multiple returns are modelled as `String × Option ε`
  (the string component is always present, as in Go).
* Fallible operations returning a single value are modelled with `Except`.
* Go `strings.ToUpper` is modelled character-wise by `goToUpper`
  (exact on ASCII, which is the VIN alphabet).
* Gauge values (float64 in Go) are modelled exactly in `ℚ`; every value the
  program publishes is an integer or a decimal reading, so this is faithful.
* External network calls (login, vehicle list, the five provider reads) are
  modelled as per-cycle inputs: each cycle of the loop receives the outcomes
  the remote source would have produced for that cycle.
-/

namespace IoniqExporter

/-- Character-wise model of Go strings.ToUpper (src/main.go lines 195, 202). -/
def goToUpper (s : String) : String :=
  ⟨s.data.map Char.toUpper⟩

/-- A tracked vehicle as the program uses it: the essential attribute is the
VIN string (src/main.go lines 105-107 extract v.VIN). -/
structure Vehicle where
  vin : String
deriving DecidableEq, Repr

/-- Errors produced by ensureVehicleEx (src/main.go lines 183-215), one
constructor per error-producing site: the wrapped list() error (line 192),
an error returned by extract during the scan (line 200), and the final
cannot-find-vehicle error carrying the identifier list (line 211). -/
inductive ResolveError (ε : Type) where
  | listError (e : ε)
  | extractError (e : ε)
  | cannotFind (ids : List String)
deriving DecidableEq, Repr

/-- The scan loop of ensureVehicleEx (src/main.go lines 197-205): for each
vehicle, extract its identifier; an extract error returns immediately; a
case-normalized match returns the vehicle; otherwise continue. `none` means
the loop fell through without returning. -/
def scanVehicles {T ε : Type} (vinU : String) (extract : T → String × Option ε) :
    List T → Option (Except (ResolveError ε) T)
  | [] => none
  | v :: rest =>
    match (extract v).2 with
    | some e => some (.error (.extractError e))
    | none =>
      if goToUpper (extract v).1 = vinU then some (.ok v)
      else scanVehicles vinU extract rest

/-- ensureVehicleEx (src/main.go lines 183-215): resolve one vehicle from the
result of list() given a VIN filter. Non-empty (uppercased) filter: linear
scan for the first case-insensitive match; empty filter: succeed only on a
one-element list; otherwise fail with the list of identifiers obtained by
mapping extract and ignoring its error component (lines 211-214). -/
def ensureVehicleEx {T ε : Type} (vin : String) (list : Except ε (List T))
    (extract : T → String × Option ε) : Except (ResolveError ε) T :=
  match list with
  | .error e => .error (.listError e)
  | .ok vehicles =>
    let vinU := goToUpper vin
    if vinU ≠ "" then
      match scanVehicles vinU extract vehicles with
      | some r => r
      | none => .error (.cannotFind (vehicles.map fun v => (extract v).1))
    else
      match vehicles with
      | [v] => .ok v
      | _ => .error (.cannotFind (vehicles.map fun v => (extract v).1))

/-- The extractor main passes to ensureVehicleEx (src/main.go lines 105-107):
it returns the vehicle's VIN and never errors. -/
def mainExtract : Vehicle → String × Option String :=
  fun v => (v.vin, none)

/-- A Go time.Time as the program observes it: the program only uses
finishTime.Unix(), the epoch value in seconds (src/main.go line 159). -/
structure GoTime where
  unix : Int
deriving DecidableEq, Repr

/-- The five registered gauges (src/main.go lines 46-65). `none` is a gauge
that was never set; `some q` is the last value written by Set. -/
structure Sink where
  evRange : Option ℚ
  evSoc : Option ℚ
  evStatus : Option ℚ
  evFinishTime : Option ℚ
  evOdometer : Option ℚ
deriving DecidableEq, Repr

/-- The sink at process start: no gauge has been set. -/
def Sink.initial : Sink :=
  { evRange := none, evSoc := none, evStatus := none,
    evFinishTime := none, evOdometer := none }

/-- Outcomes of the external calls one loop iteration performs, in program
order (src/main.go lines 96-167): identity.Login, api.Vehicles (consumed by
ensureVehicleEx), then the five provider reads. Errors are their messages. -/
structure CycleInputs where
  loginResult : Option String
  vehiclesResult : Except String (List Vehicle)
  rangeResult : Except String Int
  socResult : Except String ℚ
  statusResult : Except String String
  finishTimeResult : Except String GoTime
  odometerResult : Except String ℚ
deriving Repr

/-- The switch on statusString.String() (src/main.go lines 135-152): each
recognized code calls evStatus.Set with its value; the default case only
logs the unknown code. Result: the new evStatus gauge state and the log
lines emitted. -/
def statusBranch (s : String) (g : Option ℚ) : Option ℚ × List String :=
  if s = "" then (some 0, [])
  else if s = ("A") then (some 1, [])
  else if s = ("B") then (some 2, [])
  else if s = ("C") then (some 3, [])
  else if s = ("D") then (some 4, [])
  else if s = ("E") then (some 5, [])
  else if s = ("F") then (some 6, [])
  else (g, [("Unknown status: ") ++ s])

/-- Handling of provider.Range (src/main.go lines 117-122): on error log and
skip, on success evRange.Set(float64(rangeKm)). -/
def stepRange (r : Except String Int) (s : Sink) : Sink × List String :=
  match r with
  | .error e => (s, [("Range Error: ") ++ e])
  | .ok v => ({ s with evRange := some ((v : ℚ)) }, [])

/-- Handling of provider.Soc (src/main.go lines 124-129). -/
def stepSoc (r : Except String ℚ) (s : Sink) : Sink × List String :=
  match r with
  | .error e => (s, [("SoC error: ") ++ e])
  | .ok v => ({ s with evSoc := some v }, [])

/-- Handling of provider.Status (src/main.go lines 131-153): on error log and
skip, on success run the status switch on the returned code. -/
def stepStatus (r : Except String String) (s : Sink) : Sink × List String :=
  match r with
  | .error e => (s, [("Status error: ") ++ e])
  | .ok c => ({ s with evStatus := (statusBranch c s.evStatus).1 },
              (statusBranch c s.evStatus).2)

/-- Handling of provider.FinishTime (src/main.go lines 155-160): on success
evFinishTime.Set(float64(finishTime.Unix())). -/
def stepFinishTime (r : Except String GoTime) (s : Sink) : Sink × List String :=
  match r with
  | .error e => (s, [("Finish time error: ") ++ e])
  | .ok t => ({ s with evFinishTime := some ((t.unix : ℚ)) }, [])

/-- Handling of provider.Odometer (src/main.go lines 162-167). -/
def stepOdometer (r : Except String ℚ) (s : Sink) : Sink × List String :=
  match r with
  | .error e => (s, [("Odometer error: ") ++ e])
  | .ok v => ({ s with evOdometer := some v }, [])

/-- The five sequential fetch-and-publish blocks of one cycle
(src/main.go lines 117-167), in program order, with their log output. -/
def pollMetrics (inp : CycleInputs) (s : Sink) : Sink × List String :=
  let r1 := stepRange inp.rangeResult s
  let r2 := stepSoc inp.socResult r1.1
  let r3 := stepStatus inp.statusResult r2.1
  let r4 := stepFinishTime inp.finishTimeResult r3.1
  let r5 := stepOdometer inp.odometerResult r4.1
  (r5.1, r1.2 ++ r2.2 ++ r3.2 ++ r4.2 ++ r5.2)

/-- How one iteration of the goroutine loop ends (src/main.go lines 95-170):
login failed (continue after sleep, line 97-101), vehicle resolution failed
(continue after sleep, lines 105-113), or the polling block ran (lines
115-167 then sleep). There is no constructor that exits the loop or the
process: no statement in the loop body does. -/
inductive CycleOutcome where
  | loginFailed
  | resolveFailed
  | polled
deriving DecidableEq, Repr

/-- One iteration of the goroutine loop body (src/main.go lines 95-170):
a fresh identity/login, then resolution over a fresh vehicle list, then the
five metric fetches; every branch ends with time.Sleep(pollInterval seconds).
Result: the sink afterwards, how the iteration ended, and how many seconds
it slept. -/
def cycleBody (pollInterval : Nat) (vin : String) (inp : CycleInputs)
    (s : Sink) : Sink × CycleOutcome × Nat :=
  match inp.loginResult with
  | some _ => (s, .loginFailed, pollInterval)
  | none =>
    match ensureVehicleEx vin inp.vehiclesResult mainExtract with
    | .error _ => (s, .resolveFailed, pollInterval)
    | .ok _ => ((pollMetrics inp s).1, .polled, pollInterval)

/-- The goroutine loop (src/main.go lines 94-171) run over a finite trace of
per-cycle external outcomes, threading only the sink from cycle to cycle
(the loop keeps no other state: identity, api, vehicle and provider are
rebuilt inside every iteration). Returns the final sink and, per cycle, how
it ended and how long it slept. -/
def runLoop (pollInterval : Nat) (vin : String) :
    List CycleInputs → Sink → Sink × List (CycleOutcome × Nat)
  | [], s => (s, [])
  | inp :: rest, s =>
    let r := cycleBody pollInterval vin inp s
    let rl := runLoop pollInterval vin rest r.1
    (rl.1, (r.2.1, r.2.2) :: rl.2)

/-- The flag-configured surface of the process (src/main.go lines 30-37). -/
structure Config where
  listenAddr : String
  username : String
  token : String
  vin : String
  pollInterval : Nat
  showVersion : Bool
deriving DecidableEq, Repr

/-- The flag defaults (src/main.go lines 30-37): the values used when the
corresponding flag is not supplied. -/
def defaultConfig : Config :=
  { listenAddr := (":9333"),
    username := ("user@example.com"),
    token := ("secret1234"),
    vin := ("TM..."),
    pollInterval := 60,
    showVersion := false }

/-- What the process does right after flag parsing (src/main.go lines 41-44):
with -version it prints the version banner and calls os.Exit(0) before any
gauge is registered or the loop starts; otherwise it goes on to start the
poll loop and serve /metrics. -/
inductive StartupAction where
  | printVersionThenExit (code : Nat)
  | startLoopAndServe
deriving DecidableEq, Repr

/-- The startup branch on the -version flag (src/main.go lines 41-44). -/
def startup (c : Config) : StartupAction :=
  if c.showVersion then .printVersionThenExit 0 else .startLoopAndServe

/-- A derived view of the status switch (src/main.go lines 135-152): the
numeric value a status code maps to, `none` for codes outside the table. -/
def statusToCode (s : String) : Option ℚ :=
  if s = "" then some 0
  else if s = ("A") then some 1
  else if s = ("B") then some 2
  else if s = ("C") then some 3
  else if s = ("D") then some 4
  else if s = ("E") then some 5
  else if s = ("F") then some 6
  else none

/-- Inputs of a cycle in which every provider read fails except the status
read, which returns the unrecognized code X; used as a concrete input. -/
def unknownStatusInputs : CycleInputs :=
  { loginResult := none,
    vehiclesResult := .ok [Vehicle.mk ("KMH1")],
    rangeResult := .error ("range down"),
    socResult := .error ("soc down"),
    statusResult := .ok ("X"),
    finishTimeResult := .error ("ft down"),
    odometerResult := .error ("odo down") }

/-- A sink whose status gauge holds a previously published value 3. -/
def staleStatusSink : Sink :=
  { evRange := none, evSoc := none, evStatus := some 3,
    evFinishTime := none, evOdometer := none }

/-- Inputs of a cycle in which exactly one of the five provider reads (the
SoC read) fails and the status read returns the unrecognized code X. -/
def oneFailureInputs : CycleInputs :=
  { loginResult := none,
    vehiclesResult := .ok [Vehicle.mk ("KMH1")],
    rangeResult := .ok 100,
    socResult := .error ("soc down"),
    statusResult := .ok ("X"),
    finishTimeResult := .ok (GoTime.mk 1700000000),
    odometerResult := .ok 5 }

theorem goToUpper_eq_empty_iff (s : String) : goToUpper s = ("") ↔ s = ("") := by
  obtain ⟨d⟩ := s
  constructor
  · intro h
    have hd : d.map Char.toUpper = [] := congrArg String.data h
    have : d = [] := List.map_eq_nil_iff.mp hd
    simp [this]
  · intro h
    rw [h]
    rfl

theorem scanVehicles_eq_find {T ε : Type} (vinU : String)
    (extract : T → String × Option ε) (l : List T)
    (hext : ∀ t ∈ l, (extract t).2 = none) :
    scanVehicles vinU extract l =
      (l.find? fun t => goToUpper (extract t).1 == vinU).map Except.ok := by
  induction l with
  | nil => rfl
  | cons v rest ih =>
    have hv : (extract v).2 = none := hext v (List.mem_cons_self v rest)
    have hrest : ∀ t ∈ rest, (extract t).2 = none :=
      fun t ht => hext t (List.mem_cons_of_mem v ht)
    rw [scanVehicles, hv]
    by_cases h : goToUpper (extract v).1 = vinU
    · simp [List.find?_cons, h]
    · simp only [List.find?_cons]
      have hb : (goToUpper (extract v).1 == vinU) = false := by
        simp [h]
      rw [hb]
      simp [h, ih hrest]

theorem ensureVehicleEx_ok_nonempty {T ε : Type} (vin : String) (l : List T)
    (extract : T → String × Option ε) (hne : goToUpper vin ≠ ("")) :
    ensureVehicleEx vin (.ok l) extract =
      match scanVehicles (goToUpper vin) extract l with
      | some r => r
      | none => .error (.cannotFind (l.map fun v => (extract v).1)) := by
  simp only [ensureVehicleEx]
  rw [if_pos hne]

theorem scanVehicles_extract_error {T ε : Type} (vinU : String)
    (extract : T → String × Option ε) (pre post : List T) (bad : T) (e : ε)
    (hpre : ∀ t ∈ pre, (extract t).2 = none ∧ goToUpper (extract t).1 ≠ vinU)
    (hbad : (extract bad).2 = some e) :
    scanVehicles vinU extract (pre ++ bad :: post)
      = some (.error (.extractError e)) := by
  induction pre with
  | nil =>
    rw [List.nil_append, scanVehicles, hbad]
  | cons a rest ih =>
    have ha := hpre a (List.mem_cons_self a rest)
    rw [List.cons_append, scanVehicles, ha.1, if_neg ha.2]
    exact ih (fun t ht => hpre t (List.mem_cons_of_mem a ht))

/-- Claim C1: with an identifier extractor that returns no errors on the
list (as main's extractor, which never errors), resolution succeeds in
exactly two cases: a non-empty filter returns precisely the first entity in
list order whose identifier matches the filter after uppercasing both sides
(duplicates are not deduplicated, the first match wins, as List.find?
returns the first satisfying element); an empty filter returns an entity
exactly when the list is that one-element list. -/
theorem ensureVehicleEx_success_characterization {T ε : Type} (vin : String)
    (l : List T) (extract : T → String × Option ε)
    (hext : ∀ t ∈ l, (extract t).2 = none) :
    (vin ≠ ("") → ∀ v : T,
      (ensureVehicleEx vin (.ok l) extract = .ok v ↔
        l.find? (fun t => goToUpper (extract t).1 == goToUpper vin) = some v))
    ∧ (vin = ("") → ∀ v : T,
      (ensureVehicleEx vin (.ok l) extract = .ok v ↔ l = [v])) := by
  constructor
  · intro hvin v
    have hne : goToUpper vin ≠ ("") := fun h => hvin ((goToUpper_eq_empty_iff vin).1 h)
    rw [ensureVehicleEx_ok_nonempty vin l extract hne]
    rw [scanVehicles_eq_find _ _ _ hext]
    cases hf : l.find? fun t => goToUpper (extract t).1 == goToUpper vin with
    | none => simp
    | some w => simp
  · intro hvin v
    subst hvin
    match l with
    | [] =>
      rw [show ensureVehicleEx ("") (Except.ok ([] : List T)) extract
            = Except.error (.cannotFind []) from rfl]
      simp
    | [w] =>
      rw [show ensureVehicleEx ("") (Except.ok [w]) extract = Except.ok w from rfl]
      simp
    | a :: b :: rest =>
      rw [show ensureVehicleEx ("") (Except.ok (a :: b :: rest)) extract
            = Except.error (.cannotFind ((a :: b :: rest).map fun v => (extract v).1))
          from rfl]
      simp

/-- Witness for C1: on the list xyz, Abc, abc with the mixed-case filter aBc,
resolution returns the first case-insensitive match Abc, not the later
duplicate abc; and on a one-element list with an empty filter it returns
that element. -/
theorem ensureVehicleEx_success_characterization_witness :
    ensureVehicleEx ("aBc")
        (.ok [Vehicle.mk ("xyz"), Vehicle.mk ("Abc"), Vehicle.mk ("abc")])
        mainExtract
      = .ok (Vehicle.mk ("Abc")) ∧
    ensureVehicleEx ("") (.ok [Vehicle.mk ("KMH1")]) mainExtract
      = .ok (Vehicle.mk ("KMH1")) := by
  constructor
  · exact ((ensureVehicleEx_success_characterization ("aBc")
      [Vehicle.mk ("xyz"), Vehicle.mk ("Abc"), Vehicle.mk ("abc")] mainExtract
      (fun t _ => rfl)).1 (by decide) (Vehicle.mk ("Abc"))).2 (by rfl)
  · exact ((ensureVehicleEx_success_characterization ("")
      [Vehicle.mk ("KMH1")] mainExtract
      (fun t _ => rfl)).2 rfl (Vehicle.mk ("KMH1"))).2 rfl

/-- Claim C2: with an error-free extractor, resolution fails exactly when
the filter is non-empty and no identifier matches case-insensitively (the
spec's NotFound condition) or the filter is empty and the list length is not
one (the spec's Ambiguous condition, identical for zero and for more than
one element); in every failure case the error is the cannot-find-vehicle
error carrying the list of all available identifiers. -/
theorem ensureVehicleEx_failure_characterization {T ε : Type} (vin : String)
    (l : List T) (extract : T → String × Option ε)
    (hext : ∀ t ∈ l, (extract t).2 = none) :
    ∀ err, (ensureVehicleEx vin (.ok l) extract = .error err ↔
      (err = .cannotFind (l.map fun t => (extract t).1) ∧
        ((vin ≠ ("") ∧ ∀ t ∈ l, goToUpper (extract t).1 ≠ goToUpper vin) ∨
         (vin = ("") ∧ l.length ≠ 1)))) := by
  intro err
  by_cases hvin : vin = ("")
  · subst hvin
    match l with
    | [] =>
      rw [show ensureVehicleEx ("") (Except.ok ([] : List T)) extract
            = Except.error (.cannotFind []) from rfl]
      simp [eq_comm]
    | [w] =>
      rw [show ensureVehicleEx ("") (Except.ok [w]) extract = Except.ok w from rfl]
      simp
    | a :: b :: rest =>
      rw [show ensureVehicleEx ("") (Except.ok (a :: b :: rest)) extract
            = Except.error (.cannotFind ((a :: b :: rest).map fun v => (extract v).1))
          from rfl]
      simp [eq_comm]
  · have hne : goToUpper vin ≠ ("") := fun h => hvin ((goToUpper_eq_empty_iff vin).1 h)
    rw [ensureVehicleEx_ok_nonempty vin l extract hne]
    rw [scanVehicles_eq_find _ _ _ hext]
    cases hf : l.find? fun t => goToUpper (extract t).1 == goToUpper vin with
    | none =>
      have hall : ∀ t ∈ l, goToUpper (extract t).1 ≠ goToUpper vin := by
        intro t ht
        have := List.find?_eq_none.mp hf t ht
        simpa using this
      simp only [Option.map_none']
      constructor
      · intro h
        have he : err = ResolveError.cannotFind (l.map fun t => (extract t).1) := by
          have := (Except.error.injEq _ _).mp h
          exact this.symm
        exact ⟨he, Or.inl ⟨hvin, hall⟩⟩
      · rintro ⟨he, _⟩
        rw [he]
    | some w =>
      have hw : w ∈ l := List.mem_of_find?_eq_some hf
      have hpw : goToUpper (extract w).1 = goToUpper vin := by
        have := List.find?_some hf
        simpa using this
      simp only [Option.map_some']
      constructor
      · intro h
        exact absurd h (by simp)
      · rintro ⟨he, hcase | hcase⟩
        · exact absurd hpw (hcase.2 w hw)
        · exact absurd hcase.1 hvin

/-- Witness for C2: the filter QQQ matches nothing in a one-element list and
resolution fails with the identifier list abc in the error detail; the empty
filter over a two-element list fails with both identifiers in the detail. -/
theorem ensureVehicleEx_failure_characterization_witness :
    ensureVehicleEx ("QQQ") (.ok [Vehicle.mk ("abc")]) mainExtract
      = .error (.cannotFind [("abc")]) ∧
    ensureVehicleEx ("") (.ok [Vehicle.mk ("abc"), Vehicle.mk ("xyz")]) mainExtract
      = .error (.cannotFind [("abc"), ("xyz")]) := by
  constructor
  · exact ((ensureVehicleEx_failure_characterization ("QQQ")
      [Vehicle.mk ("abc")] mainExtract (fun t _ => rfl))
      (.cannotFind [("abc")])).2 ⟨rfl, Or.inl ⟨by decide, by decide⟩⟩
  · exact ((ensureVehicleEx_failure_characterization ("")
      [Vehicle.mk ("abc"), Vehicle.mk ("xyz")] mainExtract (fun t _ => rfl))
      (.cannotFind [("abc"), ("xyz")])).2 ⟨rfl, Or.inr ⟨rfl, by decide⟩⟩

/-- Counterexample to C10 as stated: in the diagnostic-list build of
ensureVehicleEx (src/main.go lines 211-214) an entity whose extraction
errors contributes the string the extractor returned alongside the error,
not the zero-value string. Here both extractions error while returning FOO
and BAR, and the cannot-find detail carries FOO and BAR, not two empty
strings. -/
theorem ensureVehicleEx_diagnostic_uses_returned_string :
    ensureVehicleEx (ε := String) ("") (.ok ([0, 1] : List Nat))
        (fun t => (if t = 0 then ("FOO") else ("BAR"), some ("boom")))
      = .error (.cannotFind [("FOO"), ("BAR")]) ∧
    ([("FOO"), ("BAR")] : List String) ≠ [(""), ("")] := by
  exact ⟨rfl, by decide⟩

/-- Claim C10 as amended: with a non-empty filter, an extraction error on
any entity scanned before a match aborts resolution immediately with that
extraction error, which carries no identifier list, even if a later entity
in the list would have matched; and in the cannot-find branch extraction
errors are silently ignored, each entity contributing the string component
the extractor returned alongside the error (the zero-value string only when
the extractor itself returned it). -/
theorem ensureVehicleEx_extract_error_behavior {T ε : Type} (vin : String)
    (extract : T → String × Option ε) (pre post : List T) (bad : T) (e : ε)
    (hvin : vin ≠ (""))
    (hpre : ∀ t ∈ pre, (extract t).2 = none ∧ goToUpper (extract t).1 ≠ goToUpper vin)
    (hbad : (extract bad).2 = some e) :
    ensureVehicleEx vin (.ok (pre ++ bad :: post)) extract
      = .error (.extractError e) ∧
    (∀ l : List T, l.length ≠ 1 →
      ensureVehicleEx ("") (.ok l) extract
        = .error (.cannotFind (l.map fun t => (extract t).1))) := by
  constructor
  · have hne : goToUpper vin ≠ ("") := fun h => hvin ((goToUpper_eq_empty_iff vin).1 h)
    rw [ensureVehicleEx_ok_nonempty _ _ _ hne]
    rw [scanVehicles_extract_error _ _ _ _ _ _ hpre hbad]
  · intro l hl
    match l with
    | [] => rfl
    | [w] => exact absurd rfl hl
    | a :: b :: rest => rfl

/-- Witness for C10 as amended: scanning 0, 1, 2 for filter ZZZ, entity 0
does not match, extraction of entity 1 errors with boom, and entity 2 would
have matched (its identifier zzz uppercases to ZZZ); resolution still fails
with the bare extraction error. The second conjunct shows the cannot-find
detail built from a list whose extractions all error. -/
theorem ensureVehicleEx_extract_error_behavior_witness :
    ensureVehicleEx (ε := String) ("ZZZ") (.ok ([0, 1, 2] : List Nat))
        (fun t => (if t = 0 then ("AAA") else if t = 1 then ("BAD") else ("zzz"),
                   if t = 1 then some ("boom") else none))
      = .error (.extractError ("boom")) ∧
    ensureVehicleEx (ε := String) ("") (.ok ([0, 1, 2] : List Nat))
        (fun t => (if t = 0 then ("AAA") else if t = 1 then ("BAD") else ("zzz"),
                   if t = 1 then some ("boom") else none))
      = .error (.cannotFind [("AAA"), ("BAD"), ("zzz")]) := by
  have h := ensureVehicleEx_extract_error_behavior ("ZZZ")
      (fun t : Nat =>
        ((if t = 0 then ("AAA") else if t = 1 then ("BAD") else ("zzz") : String),
         (if t = 1 then some ("boom") else none : Option String)))
      [0] [2] 1 ("boom") (by decide) (by decide) (by decide)
  exact ⟨h.1, h.2 [0, 1, 2] (by decide)⟩

theorem statusBranch_fst (c : String) (g : Option ℚ) :
    (statusBranch c g).1 =
      match statusToCode c with
      | some n => some n
      | none => g := by
  unfold statusBranch statusToCode
  split_ifs <;> rfl

theorem statusBranch_fst_isSome (c : String) (g : Option ℚ) (h : g.isSome) :
    ((statusBranch c g).1).isSome := by
  unfold statusBranch
  split_ifs <;> simp [h]

/-- Claim C3: the status switch maps the empty code to 0 and the codes A
through F to 1 through 6; any other code publishes nothing, leaves the
previously set gauge state unchanged, and emits a diagnostic naming the
unrecognized code. -/
theorem statusBranch_fixed_table (g : Option ℚ) (s : String)
    (h : s ∉ ([(""), ("A"), ("B"), ("C"), ("D"), ("E"), ("F")] : List String)) :
    statusBranch ("") g = (some 0, []) ∧
    statusBranch ("A") g = (some 1, []) ∧
    statusBranch ("B") g = (some 2, []) ∧
    statusBranch ("C") g = (some 3, []) ∧
    statusBranch ("D") g = (some 4, []) ∧
    statusBranch ("E") g = (some 5, []) ∧
    statusBranch ("F") g = (some 6, []) ∧
    statusBranch s g = (g, [("Unknown status: ") ++ s]) := by
  refine ⟨rfl, rfl, rfl, rfl, rfl, rfl, rfl, ?_⟩
  simp only [List.mem_cons, not_or] at h
  obtain ⟨h0, hA, hB, hC, hD, hE, hF, _⟩ := h
  simp [statusBranch, h0, hA, hB, hC, hD, hE, hF]

/-- Witness for C3: the unrecognized code X leaves a previously published 3
in place and logs it, while the fixed rows of the table hold. -/
theorem statusBranch_fixed_table_witness :
    statusBranch ("") (some 3) = (some 0, []) ∧
    statusBranch ("C") (some 3) = (some 3, []) ∧
    statusBranch ("X") (some 3) = (some 3, [("Unknown status: X")]) := by
  have h := statusBranch_fixed_table (some 3) ("X") (by decide)
  exact ⟨h.1, h.2.2.2.1, h.2.2.2.2.2.2.2⟩

/-- Counterexample to C4 as stated: the VIN filter flag does not default to
the empty string but to the non-empty placeholder TM... (src/main.go line
34), so running without -vin does not put the program in single-entity
mode: with the default configuration a one-vehicle account fails to resolve
instead of returning its single vehicle. -/
theorem defaultConfig_vin_not_unset :
    defaultConfig.vin = ("TM...") ∧
    defaultConfig.vin ≠ ("") ∧
    ensureVehicleEx defaultConfig.vin (.ok [Vehicle.mk ("KMHABC")]) mainExtract
      = .error (.cannotFind [("KMHABC")]) := by
  exact ⟨rfl, by decide, rfl⟩

/-- Claim C4 as amended: the defaults are listen address :9333 and poll
interval 60 seconds, the VIN filter defaults to the non-empty placeholder
TM... (so single-entity mode requires explicitly passing an empty -vin),
and the version flag prints build metadata and exits with code 0 without
starting the poll loop. -/
theorem defaultConfig_values_and_version_flag :
    defaultConfig.listenAddr = (":9333") ∧
    defaultConfig.pollInterval = 60 ∧
    defaultConfig.vin = ("TM...") ∧
    defaultConfig.showVersion = false ∧
    startup { defaultConfig with showVersion := true } = .printVersionThenExit 0 ∧
    startup defaultConfig = .startLoopAndServe := by
  exact ⟨rfl, rfl, rfl, rfl, rfl, rfl⟩

theorem pollMetrics_fst (inp : CycleInputs) (s : Sink) :
    (pollMetrics inp s).1 =
      { evRange :=
          match inp.rangeResult with
          | .ok v => some ((v : ℚ))
          | .error _ => s.evRange,
        evSoc :=
          match inp.socResult with
          | .ok v => some v
          | .error _ => s.evSoc,
        evStatus :=
          match inp.statusResult with
          | .ok c => (statusBranch c s.evStatus).1
          | .error _ => s.evStatus,
        evFinishTime :=
          match inp.finishTimeResult with
          | .ok t => some ((t.unix : ℚ))
          | .error _ => s.evFinishTime,
        evOdometer :=
          match inp.odometerResult with
          | .ok v => some v
          | .error _ => s.evOdometer } := by
  obtain ⟨lg, vh, rr, sr, st, ft, od⟩ := inp
  obtain ⟨a, b, c, d, e⟩ := s
  cases rr <;> cases sr <;> cases st <;> cases ft <;> cases od <;> rfl

/-- Counterexample to C5 as stated: a successful status fetch does not
always overwrite its slot. With every other read failing, the status read
succeeds with the unrecognized code X, yet the whole sink — including the
status slot, which still holds the stale 3 — is unchanged; the cycle only
logs the unknown code. -/
theorem pollMetrics_unknown_status_not_overwritten :
    unknownStatusInputs.statusResult = .ok ("X") ∧
    (pollMetrics unknownStatusInputs staleStatusSink).1 = staleStatusSink ∧
    (pollMetrics unknownStatusInputs staleStatusSink).2
      = [("Range Error: ") ++ ("range down"), ("SoC error: ") ++ ("soc down"),
         ("Unknown status: ") ++ ("X"), ("Finish time error: ") ++ ("ft down"),
         ("Odometer error: ") ++ ("odo down")] := by
  exact ⟨rfl, rfl, rfl⟩

/-- Claim C5 as amended: per metric slot and cycle, the slot after the
polling block is fully determined by that metric's own fetch result: a
failed fetch leaves it unchanged, a successful fetch overwrites exactly its
own slot with the fresh reading — except the status metric, whose
successful fetch routes through the status switch and leaves the slot
unchanged when the code is unrecognized — and a slot that holds a value is
never reverted to no-value. -/
theorem pollMetrics_slot_effects (inp : CycleInputs) (s : Sink) :
    ((pollMetrics inp s).1.evRange =
      match inp.rangeResult with
      | .ok v => some ((v : ℚ))
      | .error _ => s.evRange) ∧
    ((pollMetrics inp s).1.evSoc =
      match inp.socResult with
      | .ok v => some v
      | .error _ => s.evSoc) ∧
    ((pollMetrics inp s).1.evStatus =
      match inp.statusResult with
      | .ok c => (statusBranch c s.evStatus).1
      | .error _ => s.evStatus) ∧
    ((pollMetrics inp s).1.evFinishTime =
      match inp.finishTimeResult with
      | .ok t => some ((t.unix : ℚ))
      | .error _ => s.evFinishTime) ∧
    ((pollMetrics inp s).1.evOdometer =
      match inp.odometerResult with
      | .ok v => some v
      | .error _ => s.evOdometer) ∧
    (s.evRange.isSome → ((pollMetrics inp s).1.evRange).isSome) ∧
    (s.evSoc.isSome → ((pollMetrics inp s).1.evSoc).isSome) ∧
    (s.evStatus.isSome → ((pollMetrics inp s).1.evStatus).isSome) ∧
    (s.evFinishTime.isSome → ((pollMetrics inp s).1.evFinishTime).isSome) ∧
    (s.evOdometer.isSome → ((pollMetrics inp s).1.evOdometer).isSome) := by
  rw [pollMetrics_fst]
  refine ⟨rfl, rfl, rfl, rfl, rfl, ?_, ?_, ?_, ?_, ?_⟩
  · intro h
    cases inp.rangeResult <;> simp [h]
  · intro h
    cases inp.socResult <;> simp [h]
  · intro h
    cases hs : inp.statusResult with
    | error e => simpa using h
    | ok c => exact statusBranch_fst_isSome c s.evStatus h
  · intro h
    cases inp.finishTimeResult <;> simp [h]
  · intro h
    cases inp.odometerResult <;> simp [h]

/-- Witness for C5 as amended: in a cycle where the range read fails and the
other four succeed (status C), the range slot keeps its previous value 7
and stays set, and the other slots hold the fresh readings. -/
theorem pollMetrics_slot_effects_witness :
    (pollMetrics
        { loginResult := none, vehiclesResult := .ok [Vehicle.mk ("KMH1")],
          rangeResult := .error ("range down"), socResult := .ok 55,
          statusResult := .ok ("C"), finishTimeResult := .ok (GoTime.mk 1700000000),
          odometerResult := .ok 12345 }
        { evRange := some 7, evSoc := none, evStatus := none,
          evFinishTime := none, evOdometer := none }).1.evRange = some 7 ∧
    ((pollMetrics
        { loginResult := none, vehiclesResult := .ok [Vehicle.mk ("KMH1")],
          rangeResult := .error ("range down"), socResult := .ok 55,
          statusResult := .ok ("C"), finishTimeResult := .ok (GoTime.mk 1700000000),
          odometerResult := .ok 12345 }
        { evRange := some 7, evSoc := none, evStatus := none,
          evFinishTime := none, evOdometer := none }).1.evRange).isSome := by
  have h := pollMetrics_slot_effects
      { loginResult := none, vehiclesResult := .ok [Vehicle.mk ("KMH1")],
        rangeResult := .error ("range down"), socResult := .ok 55,
        statusResult := .ok ("C"), finishTimeResult := .ok (GoTime.mk 1700000000),
        odometerResult := .ok 12345 }
      { evRange := some 7, evSoc := none, evStatus := none,
        evFinishTime := none, evOdometer := none }
  exact ⟨h.1, h.2.2.2.2.2.1 rfl⟩

/-- Counterexample to C6 as stated: with exactly one of the five fetches
failing (SoC), the remaining four are attempted but do not all freshly
update their slots: the status fetch succeeds with the unrecognized code X
and its slot stays empty. -/
theorem pollMetrics_one_failure_not_all_fresh :
    oneFailureInputs.socResult = .error ("soc down") ∧
    oneFailureInputs.statusResult = .ok ("X") ∧
    (pollMetrics oneFailureInputs Sink.initial).1
      = { evRange := some (((100 : Int)) : ℚ), evSoc := none, evStatus := none,
          evFinishTime := some (((1700000000 : Int)) : ℚ),
          evOdometer := some 5 } := by
  exact ⟨rfl, rfl, rfl⟩

/-- Claim C6 as amended: metric-fetch failures are isolated per metric — a
successful fetch updates its own slot with the fresh reading no matter
which of the other fetches fail (for the status metric, provided the
fetched code is in the status table); in particular, when exactly one fetch
fails and the status code is recognized, the other four slots are all
freshly updated in that cycle. -/
theorem pollMetrics_isolation (inp : CycleInputs) (s : Sink) :
    (∀ v : Int, inp.rangeResult = .ok v →
        (pollMetrics inp s).1.evRange = some ((v : ℚ))) ∧
    (∀ v : ℚ, inp.socResult = .ok v →
        (pollMetrics inp s).1.evSoc = some v) ∧
    (∀ c : String, ∀ n : ℚ, inp.statusResult = .ok c → statusToCode c = some n →
        (pollMetrics inp s).1.evStatus = some n) ∧
    (∀ t : GoTime, inp.finishTimeResult = .ok t →
        (pollMetrics inp s).1.evFinishTime = some ((t.unix : ℚ))) ∧
    (∀ v : ℚ, inp.odometerResult = .ok v →
        (pollMetrics inp s).1.evOdometer = some v) := by
  refine ⟨?_, ?_, ?_, ?_, ?_⟩
  · intro v hv
    simp [pollMetrics_fst, hv]
  · intro v hv
    simp [pollMetrics_fst, hv]
  · intro c n hc hn
    simp [pollMetrics_fst, hc, statusBranch_fst, hn]
  · intro t ht
    simp [pollMetrics_fst, ht]
  · intro v hv
    simp [pollMetrics_fst, hv]

/-- Witness for C6 as amended: exactly one fetch (range) fails and the
other four — SoC 55, status C, finish time, odometer — all freshly update
their slots in the same cycle. -/
theorem pollMetrics_isolation_witness :
    (pollMetrics
        { loginResult := none, vehiclesResult := .ok [Vehicle.mk ("KMH1")],
          rangeResult := .error ("range down"), socResult := .ok 55,
          statusResult := .ok ("C"), finishTimeResult := .ok (GoTime.mk 1700000000),
          odometerResult := .ok 12345 }
        Sink.initial).1.evSoc = some 55 ∧
    (pollMetrics
        { loginResult := none, vehiclesResult := .ok [Vehicle.mk ("KMH1")],
          rangeResult := .error ("range down"), socResult := .ok 55,
          statusResult := .ok ("C"), finishTimeResult := .ok (GoTime.mk 1700000000),
          odometerResult := .ok 12345 }
        Sink.initial).1.evStatus = some 3 ∧
    (pollMetrics
        { loginResult := none, vehiclesResult := .ok [Vehicle.mk ("KMH1")],
          rangeResult := .error ("range down"), socResult := .ok 55,
          statusResult := .ok ("C"), finishTimeResult := .ok (GoTime.mk 1700000000),
          odometerResult := .ok 12345 }
        Sink.initial).1.evFinishTime = some (((1700000000 : Int)) : ℚ) ∧
    (pollMetrics
        { loginResult := none, vehiclesResult := .ok [Vehicle.mk ("KMH1")],
          rangeResult := .error ("range down"), socResult := .ok 55,
          statusResult := .ok ("C"), finishTimeResult := .ok (GoTime.mk 1700000000),
          odometerResult := .ok 12345 }
        Sink.initial).1.evOdometer = some 12345 := by
  have h := pollMetrics_isolation
      { loginResult := none, vehiclesResult := .ok [Vehicle.mk ("KMH1")],
        rangeResult := .error ("range down"), socResult := .ok 55,
        statusResult := .ok ("C"), finishTimeResult := .ok (GoTime.mk 1700000000),
        odometerResult := .ok 12345 }
      Sink.initial
  exact ⟨h.2.1 55 rfl, h.2.2.1 ("C") 3 rfl rfl,
         h.2.2.2.1 (GoTime.mk 1700000000) rfl, h.2.2.2.2 12345 rfl⟩

/-- Claim C9: when the charge-finish-time fetch succeeds, the published
value is the timestamp's Unix epoch value in seconds carried into the
gauge's numeric domain (float64(finishTime.Unix()) in src/main.go line 159,
modelled exactly in the rationals), not a duration or any other encoding. -/
theorem finishTime_published_as_unix_seconds (inp : CycleInputs) (s : Sink)
    (t : GoTime) (h : inp.finishTimeResult = .ok t) :
    (pollMetrics inp s).1.evFinishTime = some ((t.unix : ℚ)) := by
  simp [pollMetrics_fst, h]

/-- Witness for C9: a finish time with Unix value 1700000000 seconds is
published as exactly that number. -/
theorem finishTime_published_as_unix_seconds_witness :
    (pollMetrics
        { loginResult := none, vehiclesResult := .ok [Vehicle.mk ("KMH1")],
          rangeResult := .error ("range down"), socResult := .error ("soc down"),
          statusResult := .error ("status down"),
          finishTimeResult := .ok (GoTime.mk 1700000000),
          odometerResult := .error ("odo down") }
        Sink.initial).1.evFinishTime = some (((1700000000 : Int)) : ℚ) := by
  exact finishTime_published_as_unix_seconds
      { loginResult := none, vehiclesResult := .ok [Vehicle.mk ("KMH1")],
        rangeResult := .error ("range down"), socResult := .error ("soc down"),
        statusResult := .error ("status down"),
        finishTimeResult := .ok (GoTime.mk 1700000000),
        odometerResult := .error ("odo down") }
      Sink.initial (GoTime.mk 1700000000) rfl

theorem cycleBody_sleep (pollInterval : Nat) (vin : String) (inp : CycleInputs)
    (s : Sink) : (cycleBody pollInterval vin inp s).2.2 = pollInterval := by
  unfold cycleBody
  cases inp.loginResult with
  | some e => rfl
  | none => cases ensureVehicleEx vin inp.vehiclesResult mainExtract <;> rfl

theorem runLoop_sleeps (pollInterval : Nat) (vin : String)
    (l : List CycleInputs) (s : Sink) :
    ((runLoop pollInterval vin l s).2.map fun r => r.2)
      = List.replicate l.length pollInterval := by
  induction l generalizing s with
  | nil => rfl
  | cons inp rest ih =>
    simp only [runLoop, List.map_cons, List.length_cons, List.replicate_succ]
    exact congrArg₂ List.cons (cycleBody_sleep pollInterval vin inp s) (ih _)

/-- Claim C7: every iteration of the loop, whatever its outcome — login
failure, resolution failure, or a completed polling block — sleeps exactly
the configured interval before the next cycle; over any trace the sequence
of sleeps is the constant configured interval, so the loop never polls
faster than it and uses the same fixed delay as failure retry (no
backoff). -/
theorem poll_interval_fixed_every_cycle (pollInterval : Nat) (vin : String)
    (inp : CycleInputs) (s : Sink) (l : List CycleInputs) :
    (cycleBody pollInterval vin inp s).2.2 = pollInterval ∧
    ((runLoop pollInterval vin l s).2.map fun r => r.2)
      = List.replicate l.length pollInterval := by
  exact ⟨cycleBody_sleep pollInterval vin inp s, runLoop_sleeps pollInterval vin l s⟩

theorem runLoop_append_fst (pollInterval : Nat) (vin : String)
    (l1 l2 : List CycleInputs) (s : Sink) :
    (runLoop pollInterval vin (l1 ++ l2) s).1
      = (runLoop pollInterval vin l2 (runLoop pollInterval vin l1 s).1).1 := by
  induction l1 generalizing s with
  | nil => rfl
  | cons inp rest ih =>
    simp only [List.cons_append, runLoop]
    exact ih _

theorem runLoop_length (pollInterval : Nat) (vin : String)
    (l : List CycleInputs) (s : Sink) :
    (runLoop pollInterval vin l s).2.length = l.length := by
  induction l generalizing s with
  | nil => rfl
  | cons inp rest ih =>
    simp only [runLoop, List.length_cons]
    exact congrArg Nat.succ (ih _)

/-- Claim C8: a login failure or a vehicle-resolution failure aborts the
cycle early — the sink is returned untouched, so none of the five metric
fetches has any effect — and the loop records the failure outcome and
sleeps; the loop processes every cycle of any trace (no error inside the
loop terminates it: one outcome is recorded per cycle); and cycles chain
only through the sink, so the login and the resolution of each cycle are
performed fresh from that cycle's own inputs regardless of what earlier
cycles did (no session or vehicle is carried across cycles — the loop's
only cross-cycle state is the sink, as the trace decomposition shows). -/
theorem cycle_abort_and_loop_persistence (pollInterval : Nat) (vin : String)
    (inp : CycleInputs) (s : Sink) (l1 l2 : List CycleInputs) :
    (∀ e, inp.loginResult = some e →
        cycleBody pollInterval vin inp s = (s, .loginFailed, pollInterval)) ∧
    (∀ err, inp.loginResult = none →
        ensureVehicleEx vin inp.vehiclesResult mainExtract = .error err →
        cycleBody pollInterval vin inp s = (s, .resolveFailed, pollInterval)) ∧
    ((runLoop pollInterval vin (l1 ++ l2) s).1
      = (runLoop pollInterval vin l2 (runLoop pollInterval vin l1 s).1).1) ∧
    ((runLoop pollInterval vin l1 s).2.length = l1.length) := by
  refine ⟨?_, ?_, runLoop_append_fst pollInterval vin l1 l2 s,
          runLoop_length pollInterval vin l1 s⟩
  · intro e he
    unfold cycleBody
    rw [he]
  · intro err h1 h2
    unfold cycleBody
    rw [h1, h2]

/-- Witness for C8: a cycle whose login fails with an error leaves the
initial sink untouched and ends as a login failure; a cycle whose login
succeeds but whose vehicle list is empty under an empty filter leaves the
sink untouched and ends as a resolution failure — in both, the provider
reads of the cycle (all successful here) write nothing. -/
theorem cycle_abort_and_loop_persistence_witness :
    cycleBody 60 ("")
        { loginResult := some ("login failed"), vehiclesResult := .ok [],
          rangeResult := .ok 1, socResult := .ok 1, statusResult := .ok (""),
          finishTimeResult := .ok (GoTime.mk 0), odometerResult := .ok 1 }
        Sink.initial
      = (Sink.initial, .loginFailed, 60) ∧
    cycleBody 60 ("")
        { loginResult := none, vehiclesResult := .ok [],
          rangeResult := .ok 1, socResult := .ok 1, statusResult := .ok (""),
          finishTimeResult := .ok (GoTime.mk 0), odometerResult := .ok 1 }
        Sink.initial
      = (Sink.initial, .resolveFailed, 60) := by
  constructor
  · exact (cycle_abort_and_loop_persistence 60 ("")
      { loginResult := some ("login failed"), vehiclesResult := .ok [],
        rangeResult := .ok 1, socResult := .ok 1, statusResult := .ok (""),
        finishTimeResult := .ok (GoTime.mk 0), odometerResult := .ok 1 }
      Sink.initial [] []).1 ("login failed") rfl
  · exact (cycle_abort_and_loop_persistence 60 ("")
      { loginResult := none, vehiclesResult := .ok [],
        rangeResult := .ok 1, socResult := .ok 1, statusResult := .ok (""),
        finishTimeResult := .ok (GoTime.mk 0), odometerResult := .ok 1 }
      Sink.initial [] []).2.1 (.cannotFind []) rfl rfl

end IoniqExporter
